import Mathlib

/-!
Verification of `src/demuxer/Demuxers/LAVFUtils.cpp` (LAV Filters demuxer
utilities): stream descriptor generation, codec name resolution, bit-rate
derivation, language selection, and the "ufile" protocol adapter.

External collaborators (the libavcodec decoder registry, metadata storage,
the language-name table, host OS file calls) are modelled as explicit
parameters; everything else is translated directly from the source file.
Machine integers are modelled as `Int`/`Nat`; none of the arithmetic in the
translated code can overflow 32 bits on the inputs the theorems use.
-/

/-! ## External codec identifiers (libavcodec CodecID enum, 2011-era values).
Only distinctness of these values matters to the translated logic. -/

abbrev CodecID := Nat

def CODEC_ID_NONE : CodecID := 0
def CODEC_ID_MPEG2VIDEO : CodecID := 2
def CODEC_ID_H264 : CodecID := 28
def CODEC_ID_VC1 : CodecID := 71
def CODEC_ID_AC3 : CodecID := 0x15003
def CODEC_ID_DTS : CodecID := 0x15004
def CODEC_ID_FLAC : CodecID := 0x1500C
def CODEC_ID_ALAC : CodecID := 0x15013
def CODEC_ID_WAVPACK : CodecID := 0x15017
def CODEC_ID_MLP : CodecID := 0x1501E
def CODEC_ID_WMALOSSLESS : CodecID := 0x15028
def CODEC_ID_TRUEHD : CodecID := 0x1502D
def CODEC_ID_MP4ALS : CodecID := 0x15030
def CODEC_ID_EAC3 : CodecID := 0x15031
def CODEC_ID_AAC_LATM : CodecID := 0x15032
def CODEC_ID_DVD_SUBTITLE : CodecID := 0x17000
def CODEC_ID_DVB_SUBTITLE : CodecID := 0x17001
def CODEC_ID_TEXT : CodecID := 0x17002
def CODEC_ID_XSUB : CodecID := 0x17003
def CODEC_ID_SSA : CodecID := 0x17004
def CODEC_ID_HDMV_PGS_SUBTITLE : CodecID := 0x17006
def CODEC_ID_SRT : CodecID := 0x17008

/-- FF_LEVEL_UNKNOWN from libavcodec. -/
def FF_LEVEL_UNKNOWN : Int := -99

/-- AVMediaType: the media types the translated switch statements distinguish.
`unknown` stands for every value outside the named cases (the C `default`). -/
inductive AVMediaType where
  | unknown
  | video
  | audio
  | data
  | subtitle
  | attachment
deriving DecidableEq, Repr

/-- PIX_FMT_NONE from libavutil. -/
def PIX_FMT_NONE : Int := -1

/-- AV_SAMPLE_FMT_FLT from libavcodec (2011-era enum). -/
def AV_SAMPLE_FMT_FLT : Int := 3

/-- AV_SAMPLE_FMT_DBL from libavcodec (2011-era enum). -/
def AV_SAMPLE_FMT_DBL : Int := 4

def AV_DISPOSITION_DEFAULT : Nat := 0x0001
def AV_DISPOSITION_FORCED : Nat := 0x0040
def AV_DISPOSITION_HEARING_IMPAIRED : Nat := 0x0080

/-- The fields of `AVCodecContext` that `LAVFUtils.cpp` reads.
`codec_id_from_aux` models `*(CodecID *)pCodecCtx->opaque`, the out-of-band
codec identity used for subtitle streams. `codec_name` is the embedded
name array (empty string models a leading NUL). -/
structure AVCodecContext where
  codec_type : AVMediaType
  codec_id : CodecID
  codec_id_from_aux : CodecID
  profile : Int
  level : Int
  codec_name : String
  codec_tag : Nat
  bit_rate : Int
  sample_rate : Int
  channels : Int
  channel_layout : Nat
  pix_fmt : Int
  sample_fmt : Int
  width : Int
  height : Int
deriving Repr

/-- The fields of `AVStream` that `LAVFUtils.cpp` reads. `metadata` is the
external key/value store (first entry with a key wins, as in
`av_metadata_get`); `language` is the deprecated stream-level field, where
`none` models a NULL pointer. -/
structure AVStream where
  index : Int
  codec : AVCodecContext
  metadata : List (String × String)
  language : Option String
  disposition : Nat
deriving Repr

/-- Modelled from the spec: external `av_metadata_get` ("metadata key/value
storage and lookup" is an out-of-scope collaborator) — returns the value of
the first entry whose key matches. -/
def av_metadata_get (md : List (String × String)) (key : String) : Option String :=
  (md.find? (fun p => p.1 == key)).map Prod.snd

/-! ## Bit-rate derivation: `get_bit_rate`, lines 36-57 -/

/-- `get_bit_rate` (lines 36-57). `bps` models the external
`av_get_bits_per_sample` registry lookup. -/
def get_bit_rate (bps : CodecID → Int) (ctx : AVCodecContext) : Int :=
  match ctx.codec_type with
  | .video | .data | .subtitle | .attachment => ctx.bit_rate
  | .audio =>
    let bits_per_sample := bps ctx.codec_id
    if bits_per_sample ≠ 0 then ctx.sample_rate * ctx.channels * bits_per_sample
    else ctx.bit_rate
  | .unknown => 0

/-- The spec's `compute_bit_rate` contract (spec section 4.2), written from the
spec's words, to be compared with `get_bit_rate`. -/
def compute_bit_rate (media_type : AVMediaType) (declared : Int)
    (sample_rate : Int) (channel_count : Int) (bits_per_sample : Int) : Int :=
  match media_type with
  | .video | .data | .subtitle | .attachment => declared
  | .audio =>
    if bits_per_sample ≠ 0 then sample_rate * channel_count * bits_per_sample
    else declared
  | .unknown => 0

/-! ## Language selection: `get_stream_language`, lines 59-71 -/

/-- The candidate language value `lang` after lines 61-66: the `"language"`
metadata entry if present, else the stream-level field when non-NULL and
non-empty; `none` models the C pointer still being NULL. -/
def lang_candidate (st : AVStream) : Option String :=
  match av_metadata_get st.metadata "language" with
  | some v => some v
  | none =>
    match st.language with
    | some l => if 0 < l.length then some l else none
    | none => none

/-- `get_stream_language` (lines 59-71). Line 68 runs
`strncmp(lang, "und", 3)` on the candidate even when it is NULL; passing a
NULL pointer to `strncmp` is a fault, modelled as `Except.error ()`.
`strncmp(l, "und", 3) == 0` holds exactly when the first three characters of
`l` are `"und"` (C string semantics: a shorter `l` compares unequal). -/
def get_stream_language (st : AVStream) : Except Unit (Option String) :=
  match lang_candidate st with
  | none => .error ()
  | some l => if l.take 3 == "und" then .ok none else .ok (some l)

/-! ## The nice-name table and its scan: lines 73-93 and 115-122 -/

/-- One entry of the static `nice_codec_names` table (struct s_codec_names). -/
structure NiceEntry where
  id : CodecID
  name : String
deriving Repr, DecidableEq

/-- The `nice_codec_names` table, lines 76-93, in source order. -/
def nice_codec_names : List NiceEntry :=
  [ ⟨CODEC_ID_VC1, "VC-1"⟩,
    ⟨CODEC_ID_MPEG2VIDEO, "MPEG-2"⟩,
    ⟨CODEC_ID_TRUEHD, "TrueHD"⟩,
    ⟨CODEC_ID_AC3, "AC-3"⟩,
    ⟨CODEC_ID_EAC3, "E-AC3"⟩,
    ⟨CODEC_ID_AAC_LATM, "AAC (LATM)"⟩,
    ⟨CODEC_ID_TEXT, "Text"⟩,
    ⟨CODEC_ID_SRT, "SRT"⟩,
    ⟨CODEC_ID_HDMV_PGS_SUBTITLE, "PGS"⟩,
    ⟨CODEC_ID_DVD_SUBTITLE, "DVD/VOB"⟩,
    ⟨CODEC_ID_DVB_SUBTITLE, "DVB"⟩,
    ⟨CODEC_ID_SSA, "SSA/ASS"⟩,
    ⟨CODEC_ID_XSUB, "XSUB"⟩ ]

/-- The loop bound at line 116 is `sizeof(nice_codec_names)`: the size of the
array in BYTES, not its element count. On the 32-bit build each entry is
8 bytes (4-byte enum + 4-byte pointer), so the bound is 13 * 8 = 104. -/
def sizeof_nice_codec_names : Nat := 104

/-- The memory read by `nice_codec_names[i]`: the table entry for `i < 13`,
and whatever bytes happen to follow the array for `i ≥ 13` — modelled by the
unspecified function `junk` (`junk j` is the garbage "entry" at index
`13 + j`). -/
def entryAt (junk : Nat → NiceEntry) (i : Nat) : NiceEntry :=
  match nice_codec_names.get? i with
  | some e => e
  | none => junk (i - 13)

/-- The loop of lines 116-122, starting at index `i` with `n` iterations
left. Returns the `nice_name` result together with the list of indices the
loop read (in order), so that out-of-bounds reads are observable. -/
def niceScanGo (junk : Nat → NiceEntry) (id : CodecID) (i : Nat) (n : Nat) :
    Option String × List Nat :=
  Nat.rec (motive := fun _ => Nat → Option String × List Nat)
    (fun _ => (none, []))
    (fun _ ih i =>
      let e := entryAt junk i
      if e.id = id then (some e.name, [i])
      else ((ih (i + 1)).1, i :: (ih (i + 1)).2))
    n i

/-- The full scan of lines 115-122: `for (int i = 0; i < sizeof(nice_codec_names); ++i)`. -/
def niceScan (junk : Nat → NiceEntry) (id : CodecID) : Option String × List Nat :=
  niceScanGo junk id 0 sizeof_nice_codec_names

/-! ## Codec name resolution: `get_codec_name`, lines 105-148 -/

/-- `up` (lines 96-103): ASCII-lowercase letters are raised, everything else
passes through (`str[i]-('a'-'A')`, with 97 = 'a', 122 = 'z', 32 = 'a'-'A'). -/
def up (s : String) : String :=
  String.mk (s.data.map (fun c =>
    if c.toNat ≤ 122 ∧ 97 ≤ c.toNat then Char.ofNat (c.toNat - 32) else c))

/-- `sprintf_s(l_buf, "%.1f", level / 10.0)` at line 128: one decimal place
of `level / 10` — exact for the integers the guard admits (|level| < 1000). -/
def formatLevel (level : Int) : String :=
  (if level < 0 then "-" else "")
    ++ toString (level.natAbs / 10) ++ "." ++ toString (level.natAbs % 10)

/-- One byte of the external `av_get_codec_tag_string` rendering: printable
ASCII bytes become the character itself, others a bracketed decimal. -/
def tagByteRepr (b : Nat) : String :=
  if 32 ≤ b ∧ b ≤ 126 then String.mk [Char.ofNat b] else "[" ++ toString b ++ "]"

/-- Modelled from the spec: the external `av_get_codec_tag_string` — "the
host's four-character tag-string representation of the raw codec tag" — the
four bytes of the tag, least significant first. -/
def av_get_codec_tag_string (tag : Nat) : String :=
  tagByteRepr (tag % 256) ++ tagByteRepr (tag / 256 % 256)
    ++ tagByteRepr (tag / 65536 % 256) ++ tagByteRepr (tag / 16777216 % 256)

/-- One uppercase hexadecimal digit. -/
def hexDigit (n : Nat) : Char :=
  if n < 10 then Char.ofNat (48 + n) else Char.ofNat (55 + n)

/-- The uppercase hexadecimal digits of `n`, most significant first
(`fuel` bounds the recursion; 8 suffices for a 32-bit tag). -/
def hexDigitsAux (fuel : Nat) (n : Nat) : List Char :=
  match fuel with
  | 0 => []
  | f + 1 => if n = 0 then [] else hexDigitsAux f (n / 16) ++ [hexDigit (n % 16)]

/-- The digit part of `"%04X"`: the uppercase hexadecimal rendering of
`tag`, zero-padded to AT LEAST four digits (`%04X` is a minimum field
width: larger tags print more digits). -/
def hexDigitsOf (tag : Nat) : List Char :=
  if tag = 0 then ['0'] else hexDigitsAux 8 tag

def hexPadded (tag : Nat) : List Char :=
  List.replicate (4 - (hexDigitsOf tag).length) '0' ++ hexDigitsOf tag

/-- `sprintf_s(buf, "0x%04X", tag)` at line 144. -/
def sprintf_0x04X (tag : Nat) : String :=
  "0x" ++ String.mk (hexPadded tag)

/-- The external collaborators of `LAVFUtils.cpp`, as unspecified functions:
the decoder registry (`avcodec_find_decoder`, returning the decoder's `name`
when found), the profile-name table (`av_get_profile_name`, keyed here by
the codec identity the decoder was found for), the memory following the
`nice_codec_names` array, `av_get_bits_per_sample`, `ProbeLangForLanguage`,
`avcodec_get_pix_fmt_name`, `av_get_channel_layout_string`, and the
`get_bits_per_sample(enc)` helper used at lines 244-250. -/
structure Externals where
  find_decoder : CodecID → Option String
  profile_name : CodecID → Int → Option String
  junk : Nat → NiceEntry
  bits_per_sample : CodecID → Int
  probe_lang : String → String
  pix_fmt_name : Int → String
  channel_layout_string : Int → Nat → String
  ctx_bits_per_sample : AVCodecContext → Int

/-- Line 107: subtitle streams read the codec identity from the out-of-band
`opaque` field, all other streams from `codec_id`. -/
def effective_id (ctx : AVCodecContext) : CodecID :=
  if ctx.codec_type = .subtitle then ctx.codec_id_from_aux else ctx.codec_id

/-- Lines 110-111: the profile name is looked up only when a decoder was
found (`p ? av_get_profile_name(p, pCodecCtx->profile) : NULL`). -/
def profile_of (ext : Externals) (ctx : AVCodecContext) : Option String :=
  match ext.find_decoder (effective_id ctx) with
  | some _ => ext.profile_name (effective_id ctx) ctx.profile
  | none => none

/-- `get_codec_name` (lines 105-148): the resolution cascade. -/
def get_codec_name (ext : Externals) (ctx : AVCodecContext) : String :=
  let id := effective_id ctx
  let profile := profile_of ext ctx
  let nice_name := (niceScan ext.junk id).1
  if id = CODEC_ID_H264 ∧ profile.isSome then
    "H.264 " ++ profile.getD ""
      ++ (if ctx.level ≠ 0 ∧ ctx.level ≠ FF_LEVEL_UNKNOWN ∧ ctx.level < 1000
          then " L" ++ formatLevel ctx.level else "")
  else if id = CODEC_ID_DTS ∧ profile.isSome then
    profile.getD ""
  else
    match nice_name with
    | some nn => nn
    | none =>
      match ext.find_decoder id with
      | some decName => up decName
      | none =>
        if ctx.codec_name.length ≠ 0 then up ctx.codec_name
        else av_get_codec_tag_string ctx.codec_tag ++ " / " ++ sprintf_0x04X ctx.codec_tag

/-! ## Stream descriptor builder: `lavf_describe_stream`, lines 150-303 -/

/-- `show_sample_fmt` (lines 150-166): PCM identity range or the lossless
allow-list. -/
def show_sample_fmt (codec_id : CodecID) : Bool :=
  if 0x10000 ≤ codec_id ∧ codec_id < 0x12000 then true
  else if codec_id = CODEC_ID_MLP ∨ codec_id = CODEC_ID_TRUEHD
      ∨ codec_id = CODEC_ID_FLAC ∨ codec_id = CODEC_ID_WMALOSSLESS
      ∨ codec_id = CODEC_ID_WAVPACK ∨ codec_id = CODEC_ID_MP4ALS
      ∨ codec_id = CODEC_ID_ALAC then true
  else false

/-- Lines 180-185: `sLanguage` — the display name from the external
`ProbeLangForLanguage`, or the raw code when that lookup yields the empty
string. -/
def resolve_language_display (ext : Externals) (lang : String) : String :=
  let s := ext.probe_lang lang
  if s.isEmpty then lang else s

/-- The title/language opening segment shared by the three templates
(e.g. lines 199-204): both present gives `"<title> [<lang>] ("`, exactly one
gives `"<title-or-resolved-language> ("`, neither gives nothing. -/
def title_lang_segment (title : Option String) (lang : Option String)
    (sLanguage : String) : String :=
  match title, lang with
  | some t, some l => t ++ " [" ++ l ++ "] ("
  | some t, none => t ++ " ("
  | none, some _ => sLanguage ++ " ("
  | none, none => ""

/-- The closing parenthesis (e.g. lines 220-222): emitted only when a title
or language opened a segment. -/
def closing_tag (title : Option String) (lang : Option String) : String :=
  if title.isSome ∨ lang.isSome then ")" else ""

/-- The video template, lines 196-223. -/
def video_line (ext : Externals) (st : AVStream) (title lang : Option String)
    (sLanguage : String) (codec_name : String) (bitrate : Int) : String :=
  let enc := st.codec
  "V: " ++ title_lang_segment title lang sLanguage ++ codec_name
    ++ (if enc.pix_fmt ≠ PIX_FMT_NONE then ", " ++ ext.pix_fmt_name enc.pix_fmt else "")
    ++ (if enc.width ≠ 0 then ", " ++ toString enc.width ++ "x" ++ toString enc.height else "")
    ++ (if bitrate > 0 then ", " ++ toString (bitrate / 1000) ++ " kb/s" else "")
    ++ closing_tag title lang

/-- The audio template, lines 224-263. -/
def audio_line (ext : Externals) (st : AVStream) (title lang : Option String)
    (sLanguage : String) (codec_name : String) (bitrate : Int) : String :=
  let enc := st.codec
  "A: " ++ title_lang_segment title lang sLanguage ++ codec_name
    ++ (if enc.sample_rate ≠ 0 then ", " ++ toString enc.sample_rate ++ " Hz" else "")
    ++ ", " ++ ext.channel_layout_string enc.channels enc.channel_layout
    ++ (if show_sample_fmt enc.codec_id ∧ ext.ctx_bits_per_sample enc ≠ 0 then
          (if enc.sample_fmt = AV_SAMPLE_FMT_FLT ∨ enc.sample_fmt = AV_SAMPLE_FMT_DBL
           then ", fp" else ", s")
            ++ toString (ext.ctx_bits_per_sample enc)
        else "")
    ++ (if bitrate > 0 then ", " ++ toString (bitrate / 1000) ++ " kb/s" else "")
    ++ closing_tag title lang
    ++ (if st.disposition.land AV_DISPOSITION_DEFAULT ≠ 0 then " [default]" else "")

/-- The subtitle template, lines 264-291. -/
def subtitle_line (st : AVStream) (title lang : Option String)
    (sLanguage : String) (codec_name : String) : String :=
  let forced := st.disposition.land AV_DISPOSITION_FORCED ≠ 0
  let hearing := st.disposition.land AV_DISPOSITION_HEARING_IMPAIRED ≠ 0
  "S: " ++ title_lang_segment title lang sLanguage ++ codec_name
    ++ closing_tag title lang
    ++ (if forced ∨ hearing then
          " [" ++ (if forced then "forced" else "")
            ++ (if hearing then (if forced then ", " else "") ++ "hearing impaired" else "")
            ++ "]"
        else "")

/-- The switch of lines 194-295 given the already-computed language result
`lang`: resolves the codec name, the display language (lines 178-185), the
title (lines 187-190) and the bit rate (line 192), then formats by type. -/
def describe_with (ext : Externals) (st : AVStream) (lang : Option String) : String :=
  let enc := st.codec
  let codec_name := get_codec_name ext enc
  let sLanguage :=
    match lang with
    | some l => resolve_language_display ext l
    | none => ""
  let title := av_metadata_get st.metadata "title"
  let bitrate := get_bit_rate ext.bits_per_sample enc
  match enc.codec_type with
  | .video => video_line ext st title lang sLanguage codec_name bitrate
  | .audio => audio_line ext st title lang sLanguage codec_name bitrate
  | .subtitle => subtitle_line st title lang sLanguage codec_name
  | _ => "Unknown: Stream #" ++ toString st.index

/-- The formatted descriptor text of lines 173-297 (`buf.str()`), threading
the fault `get_stream_language` can raise (line 68) through `Except`. -/
def describe_stream_core (ext : Externals) (st : AVStream) : Except Unit String :=
  match get_stream_language st with
  | .error e => .error e
  | .ok lang => .ok (describe_with ext st lang)

def S_OK : Int := 0

/-- E_POINTER = 0x80004003 as a signed 32-bit value. -/
def E_POINTER : Int := -2147467261

/-- `lavf_describe_stream` (lines 168-303). `pStream = none` and
`out_valid = false` model NULL argument pointers (the CheckPointer guards).
`alloc_ok = false` models `CoTaskMemAlloc` returning NULL at line 299: the
code does not test the result, `MultiByteToWideChar` fails without being
checked either, and S_OK is returned with `*ppszName` left NULL — modelled
as `(S_OK, some none)`. The second component records what was stored in
`*ppszName`: `none` = untouched, `some none` = NULL, `some (some s)` = a
buffer holding `s`. -/
def lavf_describe_stream (ext : Externals) (alloc_ok : Bool)
    (pStream : Option AVStream) (out_valid : Bool) :
    Except Unit (Int × Option (Option String)) :=
  match pStream with
  | none => .ok (E_POINTER, none)
  | some st =>
    if !out_valid then .ok (E_POINTER, none)
    else
      match describe_stream_core ext st with
      | .error e => .error e
      | .ok info => if alloc_ok then .ok (S_OK, some (some info)) else .ok (S_OK, some none)

/-! ## The "ufile" protocol adapter, lines 305-391 -/

/-- Old-ffmpeg URL open flags. -/
def URL_WRONLY : Nat := 1
def URL_RDWR : Nat := 2

/-- MSVC `_open`/`_wsopen_s` flag values. -/
def MSVC_O_RDONLY : Nat := 0x0000
def MSVC_O_WRONLY : Nat := 0x0001
def MSVC_O_RDWR : Nat := 0x0002
def MSVC_O_CREAT : Nat := 0x0100
def MSVC_O_TRUNC : Nat := 0x0200
def MSVC_O_BINARY : Nat := 0x8000

def ENOENT : Nat := 2
def EINVAL : Nat := 22

/-- `AVERROR(e)` in the 2011-era headers: plain negation. -/
def AVERROR (e : Nat) : Int := -(e : Int)

/-- `av_strstart(filename, "ufile:", &filename)` at line 311: the pointer is
advanced past the scheme only on a full match. -/
def strip_scheme (s : String) (scheme : String) : String :=
  if s.take scheme.length == scheme then s.drop scheme.length else s

/-- The host side of `ufile_open`: `MultiByteToWideChar` (returning `none`
when the UTF-8 path cannot be converted, i.e. `nChars <= 0`) and
`_wsopen_s` on the wide name and access flags (`Except.error e` = failure
with host errno `e`, `Except.ok fd` = an open descriptor). -/
structure HostFs where
  widen : String → Option String
  sopen : String → Nat → Except Nat Nat

/-- The access-mode mapping of lines 328-337, including the unconditional
`O_BINARY`. -/
def ufile_access (flags : Nat) : Nat :=
  (if flags.land URL_RDWR ≠ 0 then MSVC_O_CREAT ||| MSVC_O_TRUNC ||| MSVC_O_RDWR
   else if flags.land URL_WRONLY ≠ 0 then MSVC_O_CREAT ||| MSVC_O_TRUNC ||| MSVC_O_WRONLY
   else MSVC_O_RDONLY) ||| MSVC_O_BINARY

/-- `ufile_open` (lines 306-343). `Except.ok fd` models returning 0 with the
descriptor stored in `h->priv_data`; `Except.error r` models returning the
negative AVERROR value `r`. -/
def ufile_open (host : HostFs) (filename : String) (flags : Nat) : Except Int Nat :=
  let fname := strip_scheme filename "ufile:"
  match host.widen fname with
  | none => .error (AVERROR ENOENT)
  | some wname =>
    match host.sopen wname (ufile_access flags) with
    | .error e => .error (AVERROR e)
    | .ok fd => .ok fd

/-- `AVSEEK_SIZE` (0x10000): the reserved "report size" whence sentinel. -/
def AVSEEK_SIZE : Nat := 0x10000

def SEEK_SET : Nat := 0
def SEEK_CUR : Nat := 1
def SEEK_END : Nat := 2

/-- The state of one open file: position, total size, and content (used to
give `_read` its host semantics). -/
structure FileState where
  pos : Int
  size : Int
  content : List Nat
deriving Repr, DecidableEq

/-- Modelled from the spec: the host's standard 64-bit seek (`_lseeki64`,
an out-of-scope OS primitive) — set/cur/end repositioning, returning the
resulting offset, or errno for an invalid whence or a negative target. -/
def lseeki64 (st : FileState) (pos : Int) (whence : Nat) : Except Nat (FileState × Int) :=
  let newpos : Option Int :=
    if whence = SEEK_SET then some pos
    else if whence = SEEK_CUR then some (st.pos + pos)
    else if whence = SEEK_END then some (st.size + pos)
    else none
  match newpos with
  | none => .error EINVAL
  | some np => if np < 0 then .error EINVAL else .ok ({ st with pos := np }, np)

/-- Modelled from the spec: the host's byte-level read (`_read`, an
out-of-scope OS primitive) — returns up to `size` bytes from the current
position and advances it. -/
def host_read (st : FileState) (size : Nat) : FileState × List Nat :=
  let bytes := (st.content.drop st.pos.toNat).take size
  ({ st with pos := st.pos + bytes.length }, bytes)

/-- `ufile_seek` (lines 363-372). `fstat_result` is the outcome of the
external `_fstat64` call (`Except.error e` = failure with host errno `e`).
In the AVSEEK_SIZE branch the state is returned untouched and `st.st_size`
(the file's total size) or `AVERROR(errno)` is the result; otherwise the
value of `_lseeki64` is returned verbatim (-1 on a failed seek). -/
def ufile_seek (fstat_result : Except Nat Unit) (st : FileState)
    (pos : Int) (whence : Nat) : FileState × Int :=
  if whence = AVSEEK_SIZE then
    match fstat_result with
    | .error e => (st, AVERROR e)
    | .ok _ => (st, st.size)
  else
    match lseeki64 st pos whence with
    | .ok r => r
    | .error _ => (st, -1)

/-! ## Concrete fixtures used by witnesses and counterexamples -/

/-- A concrete choice for the memory following the table: garbage entries
whose id (CODEC_ID_NONE) matches no real stream identity used below. -/
def junk0 : Nat → NiceEntry := fun _ => ⟨CODEC_ID_NONE, ""⟩

/-- External collaborators that find nothing: no decoder, no profile, no
bits-per-sample, no language display name. -/
def ext0 : Externals where
  find_decoder := fun _ => none
  profile_name := fun _ _ => none
  junk := junk0
  bits_per_sample := fun _ => 0
  probe_lang := fun _ => ""
  pix_fmt_name := fun _ => "yuv420p"
  channel_layout_string := fun _ _ => "stereo"
  ctx_bits_per_sample := fun _ => 0

/-- Externals whose decoder registry knows H.264 with profile "High". -/
def ext_h264 : Externals :=
  { ext0 with
    find_decoder := fun _ => some "h264"
    profile_name := fun _ _ => some "High" }

/-- A baseline video codec context. -/
def ctx_base : AVCodecContext where
  codec_type := .video
  codec_id := CODEC_ID_H264
  codec_id_from_aux := CODEC_ID_NONE
  profile := 100
  level := 41
  codec_name := ""
  codec_tag := 0
  bit_rate := 0
  sample_rate := 0
  channels := 0
  channel_layout := 0
  pix_fmt := PIX_FMT_NONE
  sample_fmt := 0
  width := 0
  height := 0

/-- The spec's audio example: sample_rate 48000, channels 2, declared
bit rate 192000. -/
def ctx_audio_ex : AVCodecContext :=
  { ctx_base with
    codec_type := .audio
    codec_id := CODEC_ID_AC3
    bit_rate := 192000
    sample_rate := 48000
    channels := 2 }

def ctx_h264_41 : AVCodecContext := ctx_base

def ctx_h264_0 : AVCodecContext := { ctx_base with level := 0 }

def ctx_vc1 : AVCodecContext := { ctx_base with codec_id := CODEC_ID_VC1 }

/-- A context that falls through every resolution rule: id 28 is not in the
table, `ext0` finds no decoder, the embedded name is empty; codec_tag is
the four-character code "H264". -/
def ctx_tag : AVCodecContext := { ctx_base with codec_tag := 0x34363248 }

/-- A stream with no "language" metadata entry and a NULL stream-level
language field. -/
def stream_no_lang : AVStream where
  index := 0
  codec := ctx_base
  metadata := []
  language := none
  disposition := 0

/-- A stream whose metadata language entry is exactly "und". -/
def stream_und : AVStream :=
  { stream_no_lang with metadata := [("language", "und")] }

/-- A video stream with language metadata "eng", no title. -/
def stream_v : AVStream :=
  { stream_no_lang with codec := ctx_tag, metadata := [("language", "eng")] }

/-! ## Claim C7 -/

/-- Claim C7: `get_bit_rate` returns the declared bit rate verbatim for
video, data, subtitle and attachment streams; for audio it returns
sample_rate * channels * bits_per_sample when the registry reports a
nonzero bits-per-sample and otherwise the declared rate; and 0 for any
other media type — i.e. it agrees with the spec's `compute_bit_rate`
everywhere — and the two concrete audio examples evaluate as stated
(48000 * 2 * 16 = 1536000; bits-per-sample 0 falls back to 192000). -/
theorem C7_bit_rate :
    (∀ (bps : CodecID → Int) (ctx : AVCodecContext),
      get_bit_rate bps ctx =
        compute_bit_rate ctx.codec_type ctx.bit_rate ctx.sample_rate ctx.channels
          (bps ctx.codec_id))
    ∧ get_bit_rate (fun _ => 16) ctx_audio_ex = 1536000
    ∧ get_bit_rate (fun _ => 0) ctx_audio_ex = 192000 := by
  refine ⟨fun bps ctx => ?_, by decide, by decide⟩
  obtain ⟨t, cid, aux, prof, lvl, cname, ctag, br, sr, ch, cl, pf, sf, w, h⟩ := ctx
  cases t <;> rfl

/-! ## Claim C3 -/

/-- Claim C3 (code bug): for a stream with neither a "language" metadata
entry nor a non-empty stream-level language field, the candidate value is
absent, yet line 68 still applies `strncmp(lang, "und", 3)` to the NULL
candidate and faults instead of returning NULL; likewise when the
stream-level field is present but empty. -/
theorem C3_null_language_fault :
    lang_candidate stream_no_lang = none
    ∧ get_stream_language stream_no_lang = .error ()
    ∧ get_stream_language { stream_no_lang with language := some "" } = .error () :=
  ⟨rfl, rfl, rfl⟩

/-! ## Claim C4 -/

/-- Claim C4: when the resolved identity is CODEC_ID_H264 and a profile
name is available, the resolver emits `"H.264 " ++ profile`, appending
`" L"` and the one-decimal rendering of level/10 if and only if the level
is non-zero, not FF_LEVEL_UNKNOWN, and numerically below 1000. -/
theorem C4_h264 (ext : Externals) (ctx : AVCodecContext) (prof : String)
    (hid : effective_id ctx = CODEC_ID_H264)
    (hp : profile_of ext ctx = some prof) :
    get_codec_name ext ctx =
      "H.264 " ++ prof
        ++ (if ctx.level ≠ 0 ∧ ctx.level ≠ FF_LEVEL_UNKNOWN ∧ ctx.level < 1000
            then " L" ++ formatLevel ctx.level else "") := by
  simp [get_codec_name, hid, hp]

/-- Claim C4 witness: profile "High" with level 41 yields "H.264 High L4.1"
and with level 0 yields "H.264 High". -/
theorem C4_h264_witness :
    get_codec_name ext_h264 ctx_h264_41 = "H.264 High L4.1"
    ∧ get_codec_name ext_h264 ctx_h264_0 = "H.264 High" := by
  constructor
  · rw [C4_h264 ext_h264 ctx_h264_41 "High" rfl rfl]; rfl
  · rw [C4_h264 ext_h264 ctx_h264_0 "High" rfl rfl]; rfl

/-! ## Scan lemmas shared by the codec-name claims -/

theorem niceScanGo_zero (junk : Nat → NiceEntry) (id : CodecID) (i : Nat) :
    niceScanGo junk id i 0 = (none, []) := rfl

/-- One iteration of the loop of lines 116-122. -/
theorem niceScanGo_succ (junk : Nat → NiceEntry) (id : CodecID) (i n : Nat) :
    niceScanGo junk id i (n + 1) =
      (if (entryAt junk i).id = id then (some (entryAt junk i).name, [i])
       else ((niceScanGo junk id (i + 1) n).1, i :: (niceScanGo junk id (i + 1) n).2)) := rfl

/-- If the identity first matches at offset `k` within the loop's range, the
scan stops there and returns that entry's name. -/
theorem niceScanGo_found (junk : Nat → NiceEntry) (id : CodecID) :
    ∀ (n k i : Nat), k < n →
      (∀ j, j < k → (entryAt junk (i + j)).id ≠ id) →
      (entryAt junk (i + k)).id = id →
      (niceScanGo junk id i n).1 = some (entryAt junk (i + k)).name := by
  intro n
  induction n with
  | zero => intro k i hk; omega
  | succ m ih =>
    intro k i hk hpre hfound
    rw [niceScanGo_succ]
    cases k with
    | zero =>
      rw [Nat.add_zero] at hfound ⊢
      rw [if_pos hfound]
      rfl
    | succ k' =>
      have hne : (entryAt junk i).id ≠ id := by
        have := hpre 0 (by omega)
        rwa [Nat.add_zero] at this
      rw [if_neg hne]
      have hpre' : ∀ j, j < k' → (entryAt junk (i + 1 + j)).id ≠ id := by
        intro j hj
        have := hpre (j + 1) (by omega)
        rwa [show i + (j + 1) = i + 1 + j by omega] at this
      have hfound' : (entryAt junk (i + 1 + k')).id = id := by
        rwa [show i + 1 + k' = i + (k' + 1) by omega]
      have h := ih k' (i + 1) (by omega) hpre' hfound'
      rw [show i + (k' + 1) = i + 1 + k' by omega]
      exact h

/-- If no memory the loop can reach matches the identity, the scan finds
nothing. -/
theorem niceScanGo_none_of_no_match (junk : Nat → NiceEntry) (id : CodecID)
    (h : ∀ i, (entryAt junk i).id ≠ id) :
    ∀ (n i : Nat), (niceScanGo junk id i n).1 = none := by
  intro n
  induction n with
  | zero => intro i; rfl
  | succ m ih =>
    intro i
    rw [niceScanGo_succ, if_neg (h i)]
    exact ih (i + 1)

/-- The identities in the table are pairwise distinct. -/
theorem nice_ids_nodup : (nice_codec_names.map NiceEntry.id).Nodup := by decide

/-- In-bounds reads of the scan hit the real table. -/
theorem entryAt_lt (junk : Nat → NiceEntry) (j : Nat) (h : j < nice_codec_names.length) :
    entryAt junk j = nice_codec_names.get ⟨j, h⟩ := by
  unfold entryAt
  rw [List.get?_eq_get h]

/-- A codec identity present in the table is found by the scan before it can
reach the out-of-bounds region: the result is that entry's name, whatever
follows the array in memory. -/
theorem niceScan_mem (junk : Nat → NiceEntry) (e : NiceEntry)
    (he : e ∈ nice_codec_names) : (niceScan junk e.id).1 = some e.name := by
  obtain ⟨⟨k, hk⟩, hget⟩ := List.mem_iff_get.mp he
  have hk13 : k < 13 := hk
  have hpre : ∀ j, j < k → (entryAt junk (0 + j)).id ≠ e.id := by
    intro j hj
    have hj' : j < nice_codec_names.length := by
      show j < 13
      omega
    rw [Nat.zero_add, entryAt_lt junk j hj']
    intro hbad
    have hmap : (nice_codec_names.map NiceEntry.id).get ⟨j, by simpa using hj'⟩ =
        (nice_codec_names.map NiceEntry.id).get ⟨k, by simpa using hk⟩ := by
      simp only [List.get_eq_getElem, List.getElem_map]
      rw [← hget] at hbad
      exact hbad
    have hfin := nice_ids_nodup.get_inj_iff.mp hmap
    simp only [Fin.mk.injEq] at hfin
    omega
  have hfound : (entryAt junk (0 + k)).id = e.id := by
    rw [Nat.zero_add, entryAt_lt junk k hk, hget]
  have hk104 : k < sizeof_nice_codec_names := by
    show k < 104
    omega
  have h := niceScanGo_found junk e.id sizeof_nice_codec_names k 0 hk104 hpre hfound
  rw [Nat.zero_add, entryAt_lt junk k hk, hget] at h
  exact h

/-! ## Claim C9 -/

/-- Claim C9: resolving the codec identity of any `nice_codec_names` entry
when no profile name is available returns exactly that entry's name (the
table's identities are pairwise distinct — `nice_ids_nodup` — so the first
matching entry is that entry). -/
theorem C9_nice_names (ext : Externals) (ctx : AVCodecContext) (e : NiceEntry)
    (he : e ∈ nice_codec_names)
    (hid : effective_id ctx = e.id)
    (hp : profile_of ext ctx = none) :
    get_codec_name ext ctx = e.name := by
  have hscan := niceScan_mem ext.junk e he
  simp [get_codec_name, hid, hp, hscan]

/-- Claim C9 witness: CODEC_ID_VC1 with no decoder/profile resolves to
"VC-1". -/
theorem C9_nice_names_witness : get_codec_name ext0 ctx_vc1 = "VC-1" :=
  C9_nice_names ext0 ctx_vc1 ⟨CODEC_ID_VC1, "VC-1"⟩ (by decide) rfl rfl

/-! ## Claim C2 -/

/-- Claim C2 (code bug): the loop bound at line 116 is `sizeof` of the array
in bytes (104), not its element count (13). Scanning for CODEC_ID_H264 —
an identity absent from the table — reads index 13 (and every index up to
103), past the last valid index 12, before falling through with no match. -/
theorem C2_scan_out_of_bounds :
    nice_codec_names.length = 13
    ∧ 13 ∈ (niceScan junk0 CODEC_ID_H264).2
    ∧ (niceScan junk0 CODEC_ID_H264).2.length = 104
    ∧ (niceScan junk0 CODEC_ID_H264).1 = none := by
  refine ⟨rfl, by decide, by decide, by decide⟩

/-! ## Claim C10 -/

/-- If the identity matches neither a table entry nor the trailing memory,
no index the loop reads matches. -/
theorem entryAt_no_match (junk : Nat → NiceEntry) (id : CodecID)
    (htab : ∀ e ∈ nice_codec_names, e.id ≠ id)
    (hjunk : ∀ j, (junk j).id ≠ id) :
    ∀ i, (entryAt junk i).id ≠ id := by
  intro i
  unfold entryAt
  cases hg : nice_codec_names.get? i with
  | none => exact hjunk (i - 13)
  | some e => exact htab e (List.get?_mem hg)

/-- `"%04X"` always renders at least four digits. -/
theorem hexPadded_min_length (tag : Nat) : 4 ≤ (hexPadded tag).length := by
  simp only [hexPadded, List.length_append, List.length_replicate]
  omega

/-- Claim C10 (amended): for a codec context that matches none of the
earlier resolution rules — no decoder found (hence no H.264/DTS profile),
an identity matching neither the table nor the trailing memory the
overrunning scan reads, and an empty embedded codec name — the resolver
emits the four-character tag string, then `" / "`, then `"0x"` and the tag
rendered as AT LEAST four uppercase hexadecimal digits (zero-padded to a
minimum width of four; tags above 0xFFFF render with more digits). -/
theorem C10_tag_fallback (ext : Externals) (ctx : AVCodecContext)
    (htab : ∀ e ∈ nice_codec_names, e.id ≠ effective_id ctx)
    (hjunk : ∀ j, (ext.junk j).id ≠ effective_id ctx)
    (hdec : ext.find_decoder (effective_id ctx) = none)
    (hname : ctx.codec_name = "") :
    get_codec_name ext ctx =
      av_get_codec_tag_string ctx.codec_tag ++ " / " ++ sprintf_0x04X ctx.codec_tag
    ∧ sprintf_0x04X ctx.codec_tag = "0x" ++ String.mk (hexPadded ctx.codec_tag)
    ∧ 4 ≤ (hexPadded ctx.codec_tag).length := by
  have hp : profile_of ext ctx = none := by
    simp [profile_of, hdec]
  have hscan : (niceScan ext.junk (effective_id ctx)).1 = none :=
    niceScanGo_none_of_no_match ext.junk (effective_id ctx)
      (entryAt_no_match ext.junk (effective_id ctx) htab hjunk)
      sizeof_nice_codec_names 0
  refine ⟨?_, rfl, hexPadded_min_length ctx.codec_tag⟩
  simp [get_codec_name, hp, hscan, hdec, hname]

/-- Claim C10 counterexample: at codec tag 0x34363248 ("H264") the digits
after "0x" number eight, not four — `"%04X"` pads to a minimum of four
digits but prints every significant digit of a larger tag, as the spec's
own example "H264 / 0x34363248" shows. -/
theorem C10_counterexample :
    get_codec_name ext0 ctx_tag = "H264 / 0x34363248"
    ∧ (hexPadded 0x34363248).length = 8 := by
  refine ⟨by decide, by decide⟩

/-- Claim C10 witness: the fallback output at a concrete context with tag
"H264". -/
theorem C10_tag_fallback_witness :
    get_codec_name ext0 ctx_tag =
      av_get_codec_tag_string ctx_tag.codec_tag ++ " / " ++ sprintf_0x04X ctx_tag.codec_tag
    ∧ 4 ≤ (hexPadded ctx_tag.codec_tag).length := by
  have h := C10_tag_fallback ext0 ctx_tag (by decide)
    (fun j => of_decide_eq_true rfl) rfl rfl
  exact ⟨h.1, h.2.2⟩

/-! ## Claim C1 -/

/-- A string starting with a nonempty piece is nonempty. -/
theorem append_length_pos (a b : String) (h : 0 < a.length) : 0 < (a ++ b).length := by
  rw [String.length_append]
  omega

/-- Every descriptor template begins with a nonempty type tag, so the
formatted text is never empty. -/
theorem describe_with_length_pos (ext : Externals) (st : AVStream) (lang : Option String) :
    0 < (describe_with ext st lang).length := by
  simp only [describe_with]
  cases htype : st.codec.codec_type
  all_goals simp only [htype]
  all_goals try simp only [video_line, audio_line, subtitle_line]
  all_goals repeat apply append_length_pos
  all_goals decide

/-- Claim C1 (code bug): line 299's `CoTaskMemAlloc` result is never
tested; on allocation failure `lavf_describe_stream` still returns S_OK
while `*ppszName` holds NULL — success with an invalid output buffer, not
an error result. (The success-path text itself is never null or empty:
every template begins with a nonempty type tag.) -/
theorem C1_alloc_failure_swallowed :
    lavf_describe_stream ext0 false (some stream_v) true = .ok (S_OK, some none)
    ∧ (∀ (ext : Externals) (st : AVStream) (s : String),
        describe_stream_core ext st = .ok s → 0 < s.length) := by
  constructor
  · rfl
  · intro ext st s h
    unfold describe_stream_core at h
    cases hl : get_stream_language st with
    | error e =>
      rw [hl] at h
      exact Except.noConfusion h
    | ok lang =>
      rw [hl] at h
      injection h with h'
      rw [← h']
      exact describe_with_length_pos ext st lang

/-! ## Claim C8 -/

/-- Claim C8: language selection prefers the "language" metadata entry over
the stream-level field (the stream-level field is irrelevant whenever the
metadata entry exists); a candidate of exactly "und" yields an absent
result; and when a non-"und" code is selected but `ProbeLangForLanguage`
yields nothing, the raw code itself appears in the descriptor output. -/
theorem C8_language_rules :
    (∀ (st : AVStream) (v : String) (lf : Option String),
      av_metadata_get st.metadata "language" = some v →
      get_stream_language { st with language := lf } = get_stream_language st)
    ∧ (∀ st : AVStream, lang_candidate st = some "und" →
        get_stream_language st = .ok none)
    ∧ (∀ (ext : Externals) (st : AVStream) (l : String),
        st.codec.codec_type = .video →
        av_metadata_get st.metadata "title" = none →
        get_stream_language st = .ok (some l) →
        ext.probe_lang l = "" →
        ∃ rest, describe_stream_core ext st = .ok ("V: " ++ l ++ " (" ++ rest)) := by
  refine ⟨?_, ?_, ?_⟩
  · intro st v lf h
    simp [get_stream_language, lang_candidate, h]
  · intro st h
    unfold get_stream_language
    rw [h]
    rfl
  · intro ext st l htype htitle hlang hprobe
    refine ⟨get_codec_name ext st.codec
        ++ (if st.codec.pix_fmt ≠ PIX_FMT_NONE
            then ", " ++ ext.pix_fmt_name st.codec.pix_fmt else "")
        ++ (if st.codec.width ≠ 0
            then ", " ++ toString st.codec.width ++ "x" ++ toString st.codec.height else "")
        ++ (if get_bit_rate ext.bits_per_sample st.codec > 0
            then ", " ++ toString (get_bit_rate ext.bits_per_sample st.codec / 1000) ++ " kb/s"
            else "")
        ++ ")", ?_⟩
    unfold describe_stream_core
    rw [hlang]
    simp only [describe_with, htype, htitle]
    simp [video_line, title_lang_segment, closing_tag, resolve_language_display, hprobe,
      show ("" : String).isEmpty = true from rfl, String.append_assoc]

/-- Claim C8 witness: metadata "eng" beats any stream-level field; "und" is
suppressed; with no display-name lookup the raw code "eng" opens the
parenthesized segment of the descriptor. -/
theorem C8_language_rules_witness :
    get_stream_language { stream_v with language := none } = get_stream_language stream_v
    ∧ get_stream_language stream_und = .ok none
    ∧ ∃ rest, describe_stream_core ext0 stream_v = .ok ("V: " ++ "eng" ++ " (" ++ rest) :=
  ⟨C8_language_rules.1 stream_v "eng" none rfl,
   C8_language_rules.2.1 stream_und rfl,
   C8_language_rules.2.2 ext0 stream_v "eng" rfl rfl rfl rfl⟩

/-! ## Claim C6 -/

/-- Claim C6: `ufile_open` reports AVERROR(ENOENT) — "no such entry" — when
the wide-encoding conversion of the scheme-stripped path fails; otherwise
it forwards to the host open with access mapped as read-write →
create+truncate+read-write, write-only → create+truncate+write-only,
anything else → read-only (binary mode always added), and a host open
failure is returned as AVERROR of the host errno. -/
theorem C6_open (host : HostFs) (fname : String) (flags : Nat) :
    (host.widen (strip_scheme fname "ufile:") = none →
      ufile_open host fname flags = .error (AVERROR ENOENT))
    ∧ (∀ w, host.widen (strip_scheme fname "ufile:") = some w →
        ufile_open host fname flags =
          (match host.sopen w (ufile_access flags) with
           | .error e => .error (AVERROR e)
           | .ok fd => .ok fd))
    ∧ (flags.land URL_RDWR ≠ 0 →
        ufile_access flags = (MSVC_O_CREAT ||| MSVC_O_TRUNC ||| MSVC_O_RDWR) ||| MSVC_O_BINARY)
    ∧ (flags.land URL_RDWR = 0 → flags.land URL_WRONLY ≠ 0 →
        ufile_access flags = (MSVC_O_CREAT ||| MSVC_O_TRUNC ||| MSVC_O_WRONLY) ||| MSVC_O_BINARY)
    ∧ (flags.land URL_RDWR = 0 → flags.land URL_WRONLY = 0 →
        ufile_access flags = MSVC_O_RDONLY ||| MSVC_O_BINARY) := by
  refine ⟨?_, ?_, ?_, ?_, ?_⟩
  · intro h
    simp only [ufile_open]
    rw [h]
  · intro w h
    simp only [ufile_open]
    rw [h]
  · intro h
    unfold ufile_access
    rw [if_pos h]
  · intro h1 h2
    unfold ufile_access
    rw [if_neg (fun hne => hne h1), if_pos h2]
  · intro h1 h2
    unfold ufile_access
    rw [if_neg (fun hne => hne h1), if_neg (fun hne => hne h2)]

/-- A host whose path conversion always fails. -/
def host_badpath : HostFs where
  widen := fun _ => none
  sopen := fun _ _ => .error 13

/-- A host with identity path conversion that opens descriptor 3. -/
def host_ok : HostFs where
  widen := fun s => some s
  sopen := fun _ _ => .ok 3

/-- Claim C6 witness: the error and mapping cases at concrete inputs
(URL flag values: write-only bit 1, read-write bit 2). -/
theorem C6_open_witness :
    ufile_open host_badpath "ufile:x" 0 = .error (AVERROR ENOENT)
    ∧ ufile_open host_ok "ufile:x" 0 = .ok 3
    ∧ ufile_access 2 = (MSVC_O_CREAT ||| MSVC_O_TRUNC ||| MSVC_O_RDWR) ||| MSVC_O_BINARY
    ∧ ufile_access 1 = (MSVC_O_CREAT ||| MSVC_O_TRUNC ||| MSVC_O_WRONLY) ||| MSVC_O_BINARY
    ∧ ufile_access 0 = MSVC_O_RDONLY ||| MSVC_O_BINARY := by
  refine ⟨(C6_open host_badpath "ufile:x" 0).1 rfl, ?_,
    (C6_open host_ok "x" 2).2.2.1 (by decide),
    (C6_open host_ok "x" 1).2.2.2.1 (by decide) (by decide),
    (C6_open host_ok "x" 0).2.2.2.2 rfl rfl⟩
  rw [(C6_open host_ok "ufile:x" 0).2.1 "x" rfl]
  rfl

/-! ## Claim C5 -/

/-- Claim C5: with whence = AVSEEK_SIZE the seek call returns the file's
total size (or AVERROR of the host errno when `_fstat64` fails) and leaves
the handle state untouched, so a subsequent ordinary read behaves exactly
as before the call; with any other whence it performs the standard 64-bit
seek, returning the resulting offset (or `_lseeki64`'s -1 failure value
with the state unchanged). -/
theorem C5_seek (fr : Except Nat Unit) (st : FileState) (pos : Int) :
    (ufile_seek fr st pos AVSEEK_SIZE).1 = st
    ∧ (fr = .ok () → (ufile_seek fr st pos AVSEEK_SIZE).2 = st.size)
    ∧ (∀ e, fr = .error e → (ufile_seek fr st pos AVSEEK_SIZE).2 = AVERROR e)
    ∧ (∀ n, host_read ((ufile_seek fr st pos AVSEEK_SIZE).1) n = host_read st n)
    ∧ (∀ whence, whence ≠ AVSEEK_SIZE →
        ufile_seek fr st pos whence =
          (match lseeki64 st pos whence with
           | .ok r => r
           | .error _ => (st, -1))) := by
  have hfst : (ufile_seek fr st pos AVSEEK_SIZE).1 = st := by
    unfold ufile_seek
    rw [if_pos rfl]
    cases fr <;> rfl
  refine ⟨hfst, ?_, ?_, ?_, ?_⟩
  · intro h
    subst h
    rfl
  · intro e h
    subst h
    rfl
  · intro n
    rw [hfst]
  · intro whence hw
    unfold ufile_seek
    rw [if_neg hw]

/-- A file of size 10 with the handle positioned at byte 5. -/
def fs0 : FileState where
  pos := 5
  size := 10
  content := [0, 1, 2, 3, 4, 5, 6, 7, 8, 9]

/-- Claim C5 witness: the report-size mode at a concrete handle (size
returned, position kept, the next read unchanged), the fstat-failure case,
and an ordinary SEEK_SET call. -/
theorem C5_seek_witness :
    (ufile_seek (.ok ()) fs0 0 AVSEEK_SIZE).1 = fs0
    ∧ (ufile_seek (.ok ()) fs0 0 AVSEEK_SIZE).2 = fs0.size
    ∧ (ufile_seek (.error 9) fs0 0 AVSEEK_SIZE).2 = AVERROR 9
    ∧ host_read ((ufile_seek (.ok ()) fs0 0 AVSEEK_SIZE).1) 2 = host_read fs0 2
    ∧ ufile_seek (.ok ()) fs0 3 SEEK_SET = ({ fs0 with pos := 3 }, 3) := by
  refine ⟨(C5_seek (.ok ()) fs0 0).1, (C5_seek (.ok ()) fs0 0).2.1 rfl,
    (C5_seek (.error 9) fs0 0).2.2.1 9 rfl, (C5_seek (.ok ()) fs0 0).2.2.2.1 2, ?_⟩
  rw [(C5_seek (.ok ()) fs0 3).2.2.2.2 SEEK_SET (by decide)]
  rfl
